import Mathlib

/-!
Shallow embedding of the Zelda PH/ST script instruction codec
(`zeldaScripts.py`) and the pieces of the disassembly renderer
(`disassembler.py`) that the verified properties refer to.

Conventions of the embedding:
* An 8-byte little-endian instruction word is a `Nat` below `2^64`
  (`int.from_bytes(..., 'little')` of 8 bytes).
* `struct.unpack` field extraction at byte offset `k` of width `n` bytes is
  `w / 0x100^k % 0x100^n`, written with the literal powers; signed fields
  (`h`, `b` format codes) go through a two's-complement reinterpretation.
* `struct.pack` writes each field at its byte offset, so packing is the sum
  of the fields times their offset weights; `struct.pack` raises on an
  out-of-range field, so assembling returns `Option Nat` and yields `none`
  exactly when a field is out of range for its format code.
* Python properties (computed attributes with getters and setters) become
  explicit getter and setter functions over the stored field.
-/

/-- Two's-complement reading of an unsigned 8-bit value (`struct` code `b`). -/
def toSigned8 (v : Nat) : Int := if v < 128 then (v : Int) else (v : Int) - 256

/-- Two's-complement reading of an unsigned 16-bit value (`struct` code `h`). -/
def toSigned16 (v : Nat) : Int := if v < 32768 then (v : Int) else (v : Int) - 65536

/-- `Label` of `zeldaScripts.py`: a (bmg, index) pair, both signed. -/
structure Label where
  bmg : Int
  index : Int
deriving DecidableEq

/-- `Label.isNull`: `self.index == -1 and self.bmg == -1`. -/
def Label.isNull (l : Label) : Bool := l.index == -1 && l.bmg == -1

/-- Instruction type 1 (`SayInstruction`), struct format `<BBHhbb`. -/
structure SayInstruction where
  messageBMG : Nat
  messageID : Nat
  nextLabel : Label
  extraData : Int
deriving DecidableEq

/-- `SayInstruction.disassemble`: unpack `<BBHhbb` from the 8-byte word.
The leading `assert type == cls.typeID` is the `if`-guard: `none` models the
`AssertionError` on a word whose opcode byte is not 1. -/
def SayInstruction.disassemble (value : Nat) : Option SayInstruction :=
  if value % 0x100 = 1 then
    some { messageBMG := value / 0x100 % 0x100
           messageID := value / 0x10000 % 0x10000
           nextLabel := { bmg := toSigned8 (value / 0x1000000000000 % 0x100)
                          index := toSigned16 (value / 0x100000000 % 0x10000) }
           extraData := toSigned8 (value / 0x100000000000000 % 0x100) }
  else none

/-- `SayInstruction.assemble`: pack `<BBHhbb` with fields
(typeID=1, messageBMG, messageID, nextLabel.index, nextLabel.bmg, extraData).
`none` models the `struct.error` raised on an out-of-range field. -/
def SayInstruction.assemble (s : SayInstruction) : Option Nat :=
  if s.messageBMG < 0x100 ∧ s.messageID < 0x10000
      ∧ -32768 ≤ s.nextLabel.index ∧ s.nextLabel.index < 32768
      ∧ -128 ≤ s.nextLabel.bmg ∧ s.nextLabel.bmg < 128
      ∧ -128 ≤ s.extraData ∧ s.extraData < 128 then
    some (1 + s.messageBMG * 0x100 + s.messageID * 0x10000
      + (s.nextLabel.index % 0x10000).toNat * 0x100000000
      + (s.nextLabel.bmg % 0x100).toNat * 0x1000000000000
      + (s.extraData % 0x100).toNat * 0x100000000000000)
  else none

/-- The subclass a decoded `SwitchInstruction` lands in, by its `condition`
discriminant: the Python class hierarchy flattened into a tag. -/
inductive SwitchVariant where
  | sw          -- generic `SwitchInstruction` fallback
  | swResp2     -- `SwitchResponse2Instruction`
  | swResp3     -- `SwitchResponse3Instruction`
  | swResp4     -- `SwitchResponse4Instruction`
  | swPFlag     -- `SwitchProgressFlagInstruction`
  | swTFlag     -- `SwitchTempFlagInstruction`
  | swT2Flag    -- `SwitchTemp2FlagInstruction`
  | swShop      -- `SwitchShopInstruction`
deriving DecidableEq

/-- Whether the subclass keeps an actual parameter: the three response
subclasses derive from `_SwitchInstruction_NoParameter`, whose `parameter`
property reads 0 and whose setter is `pass`. -/
def SwitchVariant.storesParameter : SwitchVariant → Bool
  | .swResp2 => false
  | .swResp3 => false
  | .swResp4 => false
  | _ => true

/-- Instruction type 2 (`SwitchInstruction`), struct format `<BBHHH`.
`parameterStore` is the underlying storage behind the `parameter`
attribute or property. -/
structure SwitchInstruction where
  variant : SwitchVariant
  condition : Nat
  firstLabel : Nat
  numLabels : Nat
  parameterStore : Nat
deriving DecidableEq

/-- The `parameter` attribute read: `_SwitchInstruction_NoParameter.parameter`
returns 0; other subclasses read the stored field. -/
def SwitchInstruction.parameter (s : SwitchInstruction) : Nat :=
  if s.variant.storesParameter then s.parameterStore else 0

/-- The `parameter` attribute write: `_SwitchInstruction_NoParameter`'s setter
is `pass` (the assignment is discarded); other subclasses store the value. -/
def SwitchInstruction.setParameter (s : SwitchInstruction) (v : Nat) : SwitchInstruction :=
  if s.variant.storesParameter then { s with parameterStore := v } else s

/-- The subclass dictionary of `SwitchInstruction.disassemble`:
`{1: Response2, 2: Response3, 3: Response4, 4: ProgressFlag, 6: TempFlag,
8: Temp2Flag, 27: Shop}.get(condition, cls)`. -/
def switchSubclassFor (condition : Nat) : SwitchVariant :=
  if condition = 1 then .swResp2
  else if condition = 2 then .swResp3
  else if condition = 3 then .swResp4
  else if condition = 4 then .swPFlag
  else if condition = 6 then .swTFlag
  else if condition = 8 then .swT2Flag
  else if condition = 27 then .swShop
  else .sw

/-- `SwitchInstruction.disassemble`: unpack `<BBHHH`, pick the subclass by
`condition`, then assign condition, firstLabel, numLabels and (through the
property setter) parameter. `none` models the failed `assert type == 2`. -/
def SwitchInstruction.disassemble (value : Nat) : Option SwitchInstruction :=
  if value % 0x100 = 2 then
    let numLabels := value / 0x100 % 0x100
    let condition := value / 0x10000 % 0x10000
    let parameter := value / 0x100000000 % 0x10000
    let firstLabel := value / 0x1000000000000 % 0x10000
    some ((SwitchInstruction.mk (switchSubclassFor condition)
      condition firstLabel numLabels 0).setParameter parameter)
  else none

/-- `SwitchInstruction.assemble`: pack `<BBHHH` with fields
(typeID=2, numLabels, condition, parameter read through the property,
firstLabel). -/
def SwitchInstruction.assemble (s : SwitchInstruction) : Option Nat :=
  if s.numLabels < 0x100 ∧ s.condition < 0x10000
      ∧ s.parameter < 0x10000 ∧ s.firstLabel < 0x10000 then
    some (2 + s.numLabels * 0x100 + s.condition * 0x10000
      + s.parameter * 0x100000000 + s.firstLabel * 0x1000000000000)
  else none

/-- `.flag` alias of the flag-checking Switch subclasses: reads `parameter`. -/
def SwitchInstruction.flag (s : SwitchInstruction) : Nat := s.parameter

/-- `.flag` setter of the flag-checking Switch subclasses: writes `parameter`. -/
def SwitchInstruction.setFlag (s : SwitchInstruction) (v : Nat) : SwitchInstruction :=
  s.setParameter v

/-- `nameForBranch` of each Switch subclass. Python indexes a list literal
(raising `IndexError` when out of range), so the result is an `Option`;
the generic base class returns `str(i)`. -/
def SwitchInstruction.nameForBranch (s : SwitchInstruction) (i : Nat) : Option String :=
  match s.variant with
  | .sw => some (toString i)
  | .swResp2 => ["(first response)", "(second response)"][i]?
  | .swResp3 => ["(first response)", "(second response)", "(third response)"][i]?
  | .swResp4 =>
      ["(first response)", "(second response)", "(third response)", "(fourth response)"][i]?
  | .swPFlag => ["true", "false"][i]?
  | .swTFlag => ["true", "false"][i]?
  | .swT2Flag => ["true", "false"][i]?
  | .swShop =>
      ["Castle Town Shop", "Forest\x27s General Store", "Anouki General Store",
       "Papuchia Shop", "Goron Country Store"][i]?

/-- The subclass a decoded `DoInstruction` lands in, by its `action`
discriminant. -/
inductive DoVariant where
  | doGeneric   -- generic `DoInstruction` fallback
  | doSetPFlag  -- `DoSetProgressFlagInstruction`
  | doClrPFlag  -- `DoClearProgressFlagInstruction`
  | doSetT2Flag -- `DoSetTemp2FlagInstruction`
  | doClrT2Flag -- `DoClearTemp2FlagInstruction`
  | doSetTFlag  -- `DoSetTempFlagInstruction`
  | doClrTFlag  -- `DoClearTempFlagInstruction`
  | doScript    -- `DoLaunchScriptInstruction`
deriving DecidableEq

/-- Whether the subclass stores `parameter` with its 16-bit halves swapped:
only `DoLaunchScriptInstruction`, whose `parameter` property reads and
writes `scriptID` through the half-swap. -/
def DoVariant.swapsParameter : DoVariant → Bool
  | .doScript => true
  | _ => false

/-- `((v & 0xFFFF) << 16) | (v >> 16)` of `DoLaunchScriptInstruction` for a
32-bit `v`: the two halves are disjoint, so the bitwise-or is the sum. -/
def swapHalves (v : Nat) : Nat := (v % 0x10000) * 0x10000 + v / 0x10000

/-- Instruction type 3 (`DoInstruction`), struct format `<BBhI`.
`parameterStore` is the stored attribute behind `parameter`: for
`DoLaunchScriptInstruction` that attribute is `scriptID` (the halves of
`parameter` swapped), for every other subclass it is `parameter` itself. -/
structure DoInstruction where
  variant : DoVariant
  action : Nat
  labelNumber : Int
  parameterStore : Nat
deriving DecidableEq

/-- The `parameter` attribute read: `DoLaunchScriptInstruction.parameter`
returns `((scriptID & 0xFFFF) << 16) | (scriptID >> 16)`. -/
def DoInstruction.parameter (d : DoInstruction) : Nat :=
  if d.variant.swapsParameter then swapHalves d.parameterStore else d.parameterStore

/-- The `parameter` attribute write: `DoLaunchScriptInstruction`'s setter
stores `((value & 0xFFFF) << 16) | (value >> 16)` into `scriptID`. -/
def DoInstruction.setParameter (d : DoInstruction) (v : Nat) : DoInstruction :=
  if d.variant.swapsParameter then { d with parameterStore := swapHalves v }
  else { d with parameterStore := v }

/-- `.scriptID` of `DoLaunchScriptInstruction`: the stored attribute itself. -/
def DoInstruction.scriptID (d : DoInstruction) : Nat := d.parameterStore

/-- `.flag` alias of the flag-setting/clearing Do subclasses: reads
`parameter`. -/
def DoInstruction.flag (d : DoInstruction) : Nat := d.parameter

/-- The subclass dictionary of `DoInstruction.disassemble`:
`{0: SetProgressFlag, 1: ClearProgressFlag, 2: SetTemp2Flag,
3: ClearTemp2Flag, 4: SetTempFlag, 5: ClearTempFlag,
7: LaunchScript}.get(action, cls)`. -/
def doSubclassFor (action : Nat) : DoVariant :=
  if action = 0 then .doSetPFlag
  else if action = 1 then .doClrPFlag
  else if action = 2 then .doSetT2Flag
  else if action = 3 then .doClrT2Flag
  else if action = 4 then .doSetTFlag
  else if action = 5 then .doClrTFlag
  else if action = 7 then .doScript
  else .doGeneric

/-- `DoInstruction.disassemble`: unpack `<BBhI`, pick the subclass by
`action`, then assign action, labelNumber and (through the property setter)
parameter. The `if action == 9: print(parameter)` debug line has no effect
on the result. `none` models the failed `assert type == 3`. -/
def DoInstruction.disassemble (value : Nat) : Option DoInstruction :=
  if value % 0x100 = 3 then
    let action := value / 0x100 % 0x100
    let labelNumber := toSigned16 (value / 0x10000 % 0x10000)
    let parameter := value / 0x100000000 % 0x100000000
    some ((DoInstruction.mk (doSubclassFor action) action labelNumber 0).setParameter parameter)
  else none

/-- `DoInstruction.assemble`: pack `<BBhI` with fields
(typeID=3, action, labelNumber, parameter read through the property). -/
def DoInstruction.assemble (d : DoInstruction) : Option Nat :=
  if d.action < 0x100 ∧ -32768 ≤ d.labelNumber ∧ d.labelNumber < 32768
      ∧ d.parameter < 0x100000000 then
    some (3 + d.action * 0x100 + (d.labelNumber % 0x10000).toNat * 0x10000
      + d.parameter * 0x100000000)
  else none

/-- A decoded instruction: the result type of `disassembleInstruction`. -/
inductive Instruction where
  | say (s : SayInstruction)
  | switch (s : SwitchInstruction)
  | doInst (d : DoInstruction)
deriving DecidableEq

/-- `assemble` dispatched over the three instruction types. -/
def Instruction.assemble : Instruction → Option Nat
  | .say s => s.assemble
  | .switch s => s.assemble
  | .doInst d => d.assemble

/-- The errors `zeldaScripts.disassembleInstruction` raises: `ValueError`
for an unknown opcode byte (the spec's `UnsupportedOpcode`), and
`AssertionError` for a failed `assert` (type-byte check in a subclass
parser, or the round-trip self-check). -/
inductive DecodeError where
  | unsupportedOpcode (instID : Nat)
  | assertionError
deriving DecidableEq

/-- The dispatch step of `zeldaScripts.disassembleInstruction`:
`{1: SayInstruction, 2: SwitchInstruction, 3: DoInstruction}[instID]
.disassemble(instruction)`, before the round-trip self-check assert.
`none` when the opcode byte is not 1, 2 or 3. -/
def decodeInstruction (w : Nat) : Option Instruction :=
  if w % 0x100 = 1 then (SayInstruction.disassemble w).map Instruction.say
  else if w % 0x100 = 2 then (SwitchInstruction.disassemble w).map Instruction.switch
  else if w % 0x100 = 3 then (DoInstruction.disassemble w).map Instruction.doInst
  else none

/-- `zeldaScripts.disassembleInstruction`: read the word, raise `ValueError`
(`unsupportedOpcode`) when the opcode byte is not 1, 2 or 3, dispatch to the
per-type parser, then `assert disassembled.assemble() == instruction`
(a failure is `assertionError`). -/
def disassembleInstruction (w : Nat) : Except DecodeError Instruction :=
  let instID := w % 0x100
  if instID = 1 ∨ instID = 2 ∨ instID = 3 then
    match decodeInstruction w with
    | none => Except.error DecodeError.assertionError
    | some inst =>
        if inst.assemble = some w then Except.ok inst
        else Except.error DecodeError.assertionError
  else Except.error (DecodeError.unsupportedOpcode instID)

/-- `disassembler.convert_flag`'s while loop:
`while flag_bit > 0x80: flag_bit >>= 8; flag_offset_from_base += 1`. -/
def convertFlagLoop (flag_offset_from_base : Nat) (flag_bit : Nat) : Nat × Nat :=
  if h : 0x80 < flag_bit then convertFlagLoop (flag_offset_from_base + 1) (flag_bit / 0x100)
  else (flag_offset_from_base, flag_bit)
termination_by flag_bit
decreasing_by exact Nat.div_lt_self (by omega) (by omega)

/-- `disassembler.convert_flag`: `flag_offset_from_base = (flag >> 5) * 4`,
`flag_bit = 1 << (flag & 0x1F)`, fold the bit down byte by byte, and return
`(eventNode + flag_offset_from_base, flag_bit)`. -/
def convert_flag (eventNode : Int) (flag : Nat) : Int × Nat :=
  let r := convertFlagLoop (flag / 32 * 4) (2 ^ (flag % 32))
  (eventNode + (r.1 : Int), r.2)

/-- The goto-operand computation of `disassembler.disassembleInstructionType1`:
extract the raw goto index and goto bmg, map the all-ones patterns to -1,
and render `END` when `-1 in [gotoBmg, gotoIndex]`, else `B{bmg}_L{index}`. -/
def disassembleInstructionType1_gotoName (inst : Nat) : String :=
  let gotoIndexRaw := inst / 0x100000000 % 0x10000
  let gotoBmgRaw := inst / 0x1000000000000 % 0x100
  let gotoIndex : Int := if gotoIndexRaw = 0xFFFF then -1 else (gotoIndexRaw : Int)
  let gotoBmg : Int := if gotoBmgRaw = 0xFF then -1 else (gotoBmgRaw : Int)
  if gotoBmg = -1 ∨ gotoIndex = -1 then "END"
  else "B" ++ toString gotoBmg ++ "_L" ++ toString gotoIndex

/-! ### Helper lemmas -/

theorem toSigned16_bounds (v : Nat) (h : v < 65536) :
    -32768 ≤ toSigned16 v ∧ toSigned16 v < 32768 := by
  unfold toSigned16; split <;> omega

theorem toSigned8_bounds (v : Nat) (h : v < 256) :
    -128 ≤ toSigned8 v ∧ toSigned8 v < 128 := by
  unfold toSigned8; split <;> omega

theorem toSigned16_toNat (v : Nat) (h : v < 65536) :
    ((toSigned16 v) % 0x10000).toNat = v := by
  unfold toSigned16; split <;> omega

theorem toSigned8_toNat (v : Nat) (h : v < 256) :
    ((toSigned8 v) % 0x100).toNat = v := by
  unfold toSigned8; split <;> omega

theorem say_roundtrip (w : Nat) (hw : w < 0x10000000000000000) (h1 : w % 0x100 = 1) :
    ∃ s, SayInstruction.disassemble w = some s ∧ s.assemble = some w := by
  have hd : SayInstruction.disassemble w =
      some { messageBMG := w / 0x100 % 0x100
             messageID := w / 0x10000 % 0x10000
             nextLabel := { bmg := toSigned8 (w / 0x1000000000000 % 0x100)
                            index := toSigned16 (w / 0x100000000 % 0x10000) }
             extraData := toSigned8 (w / 0x100000000000000 % 0x100) } := by
    simp [SayInstruction.disassemble, h1]
  refine ⟨_, hd, ?_⟩
  unfold SayInstruction.assemble
  dsimp only
  rw [if_pos]
  · rw [Option.some_inj,
      toSigned16_toNat _ (Nat.mod_lt _ (by norm_num)),
      toSigned8_toNat _ (Nat.mod_lt _ (by norm_num)),
      toSigned8_toNat _ (Nat.mod_lt _ (by norm_num))]
    omega
  · refine ⟨Nat.mod_lt _ (by norm_num), Nat.mod_lt _ (by norm_num), ?_⟩
    obtain ⟨a1, a2⟩ := toSigned16_bounds (w / 0x100000000 % 0x10000) (Nat.mod_lt _ (by norm_num))
    obtain ⟨b1, b2⟩ := toSigned8_bounds (w / 0x1000000000000 % 0x100) (Nat.mod_lt _ (by norm_num))
    obtain ⟨c1, c2⟩ := toSigned8_bounds (w / 0x100000000000000 % 0x100) (Nat.mod_lt _ (by norm_num))
    exact ⟨a1, a2, b1, b2, c1, c2⟩

theorem storesParameter_of_not_resp (c : Nat) (h1 : c ≠ 1) (h2 : c ≠ 2) (h3 : c ≠ 3) :
    (switchSubclassFor c).storesParameter = true := by
  unfold switchSubclassFor
  split_ifs <;> simp_all [SwitchVariant.storesParameter]

theorem switch_roundtrip (w : Nat) (hw : w < 0x10000000000000000) (h2 : w % 0x100 = 2)
    (hp : (w / 0x10000 % 0x10000 = 1 ∨ w / 0x10000 % 0x10000 = 2 ∨ w / 0x10000 % 0x10000 = 3) →
      w / 0x100000000 % 0x10000 = 0) :
    ∃ s, SwitchInstruction.disassemble w = some s ∧ s.assemble = some w := by
  have hd : SwitchInstruction.disassemble w =
      some ((SwitchInstruction.mk (switchSubclassFor (w / 0x10000 % 0x10000))
        (w / 0x10000 % 0x10000) (w / 0x1000000000000 % 0x10000) (w / 0x100 % 0x100)
        0).setParameter (w / 0x100000000 % 0x10000)) := by
    simp [SwitchInstruction.disassemble, h2]
  refine ⟨_, hd, ?_⟩
  by_cases hresp : w / 0x10000 % 0x10000 = 1 ∨ w / 0x10000 % 0x10000 = 2 ∨ w / 0x10000 % 0x10000 = 3
  · -- response variants: the stored parameter is discarded, but the word has 0 there
    have hzero := hp hresp
    have hv : (switchSubclassFor (w / 0x10000 % 0x10000)).storesParameter = false := by
      rcases hresp with h | h | h <;> rw [h] <;> rfl
    simp only [SwitchInstruction.setParameter, SwitchInstruction.assemble,
      SwitchInstruction.parameter, hv, Bool.false_eq_true, if_false]
    rw [if_pos ⟨Nat.mod_lt _ (by norm_num), Nat.mod_lt _ (by norm_num), by norm_num,
      Nat.mod_lt _ (by norm_num)⟩]
    rw [Option.some_inj]
    omega
  · push_neg at hresp
    obtain ⟨hn1, hn2, hn3⟩ := hresp
    have hv := storesParameter_of_not_resp _ hn1 hn2 hn3
    simp only [SwitchInstruction.setParameter, SwitchInstruction.assemble,
      SwitchInstruction.parameter, hv, if_true]
    rw [if_pos ⟨Nat.mod_lt _ (by norm_num), Nat.mod_lt _ (by norm_num),
      Nat.mod_lt _ (by norm_num), Nat.mod_lt _ (by norm_num)⟩]
    rw [Option.some_inj]
    omega

theorem doSubclass_swaps_iff (a : Nat) :
    (doSubclassFor a).swapsParameter = true ↔ a = 7 := by
  unfold doSubclassFor
  split_ifs <;> simp_all [DoVariant.swapsParameter]

theorem swapHalves_swapHalves (v : Nat) (h : v < 0x100000000) :
    swapHalves (swapHalves v) = v := by
  unfold swapHalves; omega

theorem DoInstruction.parameter_setParameter (d : DoInstruction) (v : Nat)
    (h : v < 0x100000000) : (d.setParameter v).parameter = v := by
  by_cases hs : d.variant.swapsParameter = true
  · simp only [DoInstruction.setParameter, DoInstruction.parameter, hs, if_true]
    exact swapHalves_swapHalves v h
  · rw [Bool.not_eq_true] at hs
    simp only [DoInstruction.setParameter, DoInstruction.parameter, hs, Bool.false_eq_true,
      if_false]

theorem do_roundtrip (w : Nat) (hw : w < 0x10000000000000000) (h3 : w % 0x100 = 3) :
    ∃ d, DoInstruction.disassemble w = some d ∧ d.assemble = some w := by
  have hd : DoInstruction.disassemble w =
      some ((DoInstruction.mk (doSubclassFor (w / 0x100 % 0x100)) (w / 0x100 % 0x100)
        (toSigned16 (w / 0x10000 % 0x10000)) 0).setParameter (w / 0x100000000 % 0x100000000)) := by
    simp [DoInstruction.disassemble, h3]
  refine ⟨_, hd, ?_⟩
  have hparam := DoInstruction.parameter_setParameter
    (DoInstruction.mk (doSubclassFor (w / 0x100 % 0x100)) (w / 0x100 % 0x100)
      (toSigned16 (w / 0x10000 % 0x10000)) 0) (w / 0x100000000 % 0x100000000)
    (Nat.mod_lt _ (by norm_num))
  have haction : ((DoInstruction.mk (doSubclassFor (w / 0x100 % 0x100)) (w / 0x100 % 0x100)
      (toSigned16 (w / 0x10000 % 0x10000)) 0).setParameter
        (w / 0x100000000 % 0x100000000)).action = w / 0x100 % 0x100 := by
    unfold DoInstruction.setParameter; split <;> rfl
  have hlabel : ((DoInstruction.mk (doSubclassFor (w / 0x100 % 0x100)) (w / 0x100 % 0x100)
      (toSigned16 (w / 0x10000 % 0x10000)) 0).setParameter
        (w / 0x100000000 % 0x100000000)).labelNumber = toSigned16 (w / 0x10000 % 0x10000) := by
    unfold DoInstruction.setParameter; split <;> rfl
  unfold DoInstruction.assemble
  rw [hparam, haction, hlabel, if_pos]
  · rw [Option.some_inj, toSigned16_toNat _ (Nat.mod_lt _ (by norm_num))]
    omega
  · obtain ⟨a1, a2⟩ := toSigned16_bounds (w / 0x10000 % 0x10000) (Nat.mod_lt _ (by norm_num))
    exact ⟨Nat.mod_lt _ (by norm_num), a1, a2, Nat.mod_lt _ (by norm_num)⟩

theorem SwitchInstruction.variant_setParameter (s : SwitchInstruction) (v : Nat) :
    (s.setParameter v).variant = s.variant := by
  unfold SwitchInstruction.setParameter; split <;> rfl

theorem SwitchInstruction.condition_setParameter (s : SwitchInstruction) (v : Nat) :
    (s.setParameter v).condition = s.condition := by
  unfold SwitchInstruction.setParameter; split <;> rfl

/-- C1 (amended): for every 8-byte little-endian word whose opcode byte is 1, 2
or 3, re-encoding the decoded instruction reproduces the word bit-for-bit,
PROVIDED that a Switch word whose condition field is 1, 2 or 3 carries 0 in its
16-bit parameter field. (The unamended claim, quantified over all words with
opcode in {1,2,3}, is refuted by `c1_counterexample`: the response
sub-variants discard the decoded parameter.) -/
theorem c1_roundtrip_amended (w : Nat) (hw : w < 0x10000000000000000)
    (hop : w % 0x100 = 1 ∨ w % 0x100 = 2 ∨ w % 0x100 = 3)
    (hnp : w % 0x100 = 2 →
      (w / 0x10000 % 0x10000 = 1 ∨ w / 0x10000 % 0x10000 = 2 ∨ w / 0x10000 % 0x10000 = 3) →
      w / 0x100000000 % 0x10000 = 0) :
    (decodeInstruction w).bind Instruction.assemble = some w := by
  rcases hop with h | h | h
  · obtain ⟨s, hs, ha⟩ := say_roundtrip w hw h
    simp [decodeInstruction, h, hs, Instruction.assemble, ha]
  · obtain ⟨s, hs, ha⟩ := switch_roundtrip w hw h (hnp h)
    simp [decodeInstruction, h, hs, Instruction.assemble, ha]
  · obtain ⟨s, hs, ha⟩ := do_roundtrip w hw h
    simp [decodeInstruction, h, hs, Instruction.assemble, ha]

/-- C1 counterexample: the Switch word `02 00 01 00 05 00 00 00` (opcode 2,
condition 1, parameter 5) re-encodes with the parameter field zeroed, so
`assemble(disassemble(w))` is not `w`, and the round-trip self-check assert in
`disassembleInstruction` fails (an `AssertionError`). -/
theorem c1_counterexample :
    (decodeInstruction 0x0000000500010002).bind Instruction.assemble = some 0x0000000000010002 ∧
    (0x0000000000010002 : Nat) ≠ 0x0000000500010002 ∧
    disassembleInstruction 0x0000000500010002 = Except.error DecodeError.assertionError := by
  refine ⟨by decide, by decide, rfl⟩

/-- C1 witness: the amended round trip at the concrete Say word
`01 00 05 00 FF FF FF FF`. -/
theorem c1_roundtrip_witness :
    (decodeInstruction 0xFFFFFFFF00050001).bind Instruction.assemble = some 0xFFFFFFFF00050001 :=
  c1_roundtrip_amended 0xFFFFFFFF00050001 (by decide) (by decide) (by decide)

/-- C2: for every Switch word whose condition discriminant is 1, 2 or 3 (the
2-, 3- and 4-way response sub-variants), the decoded instruction reads `parameter`
as 0, every assignment to `parameter` is discarded (the setter returns the
instruction unchanged), and encoding packs 0 into the 16-bit parameter field
(bytes 4-5) regardless of the parameter bytes of the decoded word. -/
theorem c2_responseParameterDiscarded (w : Nat) (h2 : w % 0x100 = 2)
    (hc : w / 0x10000 % 0x10000 = 1 ∨ w / 0x10000 % 0x10000 = 2 ∨ w / 0x10000 % 0x10000 = 3) :
    ∃ s, SwitchInstruction.disassemble w = some s ∧
      s.parameter = 0 ∧
      (∀ v, s.setParameter v = s) ∧
      ∃ w2, s.assemble = some w2 ∧ w2 / 0x100000000 % 0x10000 = 0 := by
  have hv : (switchSubclassFor (w / 0x10000 % 0x10000)).storesParameter = false := by
    rcases hc with h | h | h <;> rw [h] <;> rfl
  have hd : SwitchInstruction.disassemble w =
      some (SwitchInstruction.mk (switchSubclassFor (w / 0x10000 % 0x10000))
        (w / 0x10000 % 0x10000) (w / 0x1000000000000 % 0x10000) (w / 0x100 % 0x100) 0) := by
    simp [SwitchInstruction.disassemble, h2, SwitchInstruction.setParameter, hv]
  refine ⟨_, hd, ?_, ?_, ?_⟩
  · simp [SwitchInstruction.parameter, hv]
  · intro v
    simp [SwitchInstruction.setParameter, hv]
  · refine ⟨2 + (w / 0x100 % 0x100) * 0x100 + (w / 0x10000 % 0x10000) * 0x10000
      + 0 * 0x100000000 + (w / 0x1000000000000 % 0x10000) * 0x1000000000000, ?_, by omega⟩
    simp only [SwitchInstruction.assemble, SwitchInstruction.parameter, hv,
      Bool.false_eq_true, if_false]
    rw [if_pos ⟨Nat.mod_lt _ (by norm_num), Nat.mod_lt _ (by norm_num), by norm_num,
      Nat.mod_lt _ (by norm_num)⟩]

/-- C2 witness: at the concrete word `02 00 01 00 05 00 00 00`, whose
parameter bytes are nonzero. -/
theorem c2_witness :
    ∃ s, SwitchInstruction.disassemble 0x0000000500010002 = some s ∧
      s.parameter = 0 ∧
      (∀ v, s.setParameter v = s) ∧
      ∃ w2, s.assemble = some w2 ∧ w2 / 0x100000000 % 0x10000 = 0 :=
  c2_responseParameterDiscarded 0x0000000500010002 (by decide) (by decide)

/-- C3: decoding a single 8-byte word fails with the unsupported-opcode error
(`ValueError` in the source) if and only if byte 0 of the word is not 1, 2 or
3; when byte 0 is 1, 2 or 3 the decoder dispatches to the Say/Switch/Do parser
and never returns that error. -/
theorem c3_unsupportedOpcode (w : Nat) (hw : w < 0x10000000000000000) :
    ((w % 0x100 = 1 ∨ w % 0x100 = 2 ∨ w % 0x100 = 3) →
      ∀ e, disassembleInstruction w ≠ Except.error (DecodeError.unsupportedOpcode e)) ∧
    (¬(w % 0x100 = 1 ∨ w % 0x100 = 2 ∨ w % 0x100 = 3) →
      disassembleInstruction w = Except.error (DecodeError.unsupportedOpcode (w % 0x100))) := by
  constructor
  · intro hop e
    simp only [disassembleInstruction]
    rw [if_pos hop]
    rcases hdec : decodeInstruction w with _ | inst
    · simp
    · by_cases hasm : inst.assemble = some w <;> simp [hasm]
  · intro hneg
    simp only [disassembleInstruction]
    rw [if_neg hneg]

/-- C3 witness: opcode byte 4 yields the unsupported-opcode error. -/
theorem c3_witness :
    disassembleInstruction 4 = Except.error (DecodeError.unsupportedOpcode 4) :=
  (c3_unsupportedOpcode 4 (by decide)).2 (by decide)

/-- C4: decoding a Switch word selects the sub-variant by the condition
field: condition 4 yields the progress-flag variant, condition 27 the shop
variant, and any unrecognized condition the generic Switch fallback, whose
stored condition still equals the raw discriminant and whose parameter is
retained verbatim. -/
theorem c4_subvariantSelection (w : Nat) (h2 : w % 0x100 = 2) :
    ∃ s, SwitchInstruction.disassemble w = some s ∧
      s.condition = w / 0x10000 % 0x10000 ∧
      (w / 0x10000 % 0x10000 = 4 → s.variant = SwitchVariant.swPFlag) ∧
      (w / 0x10000 % 0x10000 = 27 → s.variant = SwitchVariant.swShop) ∧
      (w / 0x10000 % 0x10000 ≠ 1 ∧ w / 0x10000 % 0x10000 ≠ 2 ∧ w / 0x10000 % 0x10000 ≠ 3 ∧
       w / 0x10000 % 0x10000 ≠ 4 ∧ w / 0x10000 % 0x10000 ≠ 6 ∧ w / 0x10000 % 0x10000 ≠ 8 ∧
       w / 0x10000 % 0x10000 ≠ 27 →
        s.variant = SwitchVariant.sw ∧ s.parameter = w / 0x100000000 % 0x10000) := by
  have hd : SwitchInstruction.disassemble w =
      some ((SwitchInstruction.mk (switchSubclassFor (w / 0x10000 % 0x10000))
        (w / 0x10000 % 0x10000) (w / 0x1000000000000 % 0x10000) (w / 0x100 % 0x100)
        0).setParameter (w / 0x100000000 % 0x10000)) := by
    simp [SwitchInstruction.disassemble, h2]
  refine ⟨_, hd, ?_, ?_, ?_, ?_⟩
  · unfold SwitchInstruction.setParameter; split <;> rfl
  · intro h4
    rw [h4]
    unfold SwitchInstruction.setParameter; split <;> rfl
  · intro h27
    rw [h27]
    unfold SwitchInstruction.setParameter; split <;> rfl
  · rintro ⟨g1, g2, g3, g4, g6, g8, g27⟩
    have hvv : switchSubclassFor (w / 0x10000 % 0x10000) = SwitchVariant.sw := by
      unfold switchSubclassFor
      split_ifs <;> simp_all
    have hst : (switchSubclassFor (w / 0x10000 % 0x10000)).storesParameter = true := by
      rw [hvv]; rfl
    constructor
    · simp only [SwitchInstruction.setParameter, hst, if_true]
      exact hvv
    · simp only [SwitchInstruction.setParameter, SwitchInstruction.parameter, hst, if_true]

/-- C4 witness: a Switch word with condition 99 and parameter 5 decodes to
the generic fallback carrying condition 99 and parameter 5. -/
theorem c4_witness :
    ∃ s, SwitchInstruction.disassemble 0x0000000500630002 = some s ∧
      s.condition = (99 : Nat) ∧
      ((99 : Nat) = 4 → s.variant = SwitchVariant.swPFlag) ∧
      ((99 : Nat) = 27 → s.variant = SwitchVariant.swShop) ∧
      ((99 : Nat) ≠ 1 ∧ (99 : Nat) ≠ 2 ∧ (99 : Nat) ≠ 3 ∧ (99 : Nat) ≠ 4 ∧ (99 : Nat) ≠ 6 ∧
       (99 : Nat) ≠ 8 ∧ (99 : Nat) ≠ 27 →
        s.variant = SwitchVariant.sw ∧ s.parameter = (5 : Nat)) :=
  c4_subvariantSelection 0x0000000500630002 (by decide)

theorem convertFlagLoop_le (o b : Nat) (h : b ≤ 0x80) : convertFlagLoop o b = (o, b) := by
  unfold convertFlagLoop
  rw [dif_neg (by omega)]

theorem convertFlagLoop_gt (o b : Nat) (h : 0x80 < b) :
    convertFlagLoop o b = convertFlagLoop (o + 1) (b / 0x100) := by
  conv_lhs => rw [convertFlagLoop]
  rw [dif_pos h]

/-- C5: the flag-address mapper `convert_flag` (byteAddress = base +
(flag >> 5) * 4, bitMask = 1 << (flag & 0x1F), folded down byte by byte while
the mask exceeds 0x80) maps flags 0, 7, 8, 31 and 32 to (base, 0x01),
(base, 0x80), (base+1, 0x01), (base+3, 0x80) and (base+4, 0x01). -/
theorem c5_flagAddressing : ∀ base : Int,
    convert_flag base 0 = (base, 0x01) ∧
    convert_flag base 7 = (base, 0x80) ∧
    convert_flag base 8 = (base + 1, 0x01) ∧
    convert_flag base 31 = (base + 3, 0x80) ∧
    convert_flag base 32 = (base + 4, 0x01) := by
  intro base
  have e0 : convertFlagLoop (0 / 32 * 4) (2 ^ (0 % 32)) = (0, 1) := by
    norm_num [convertFlagLoop_le]
  have e7 : convertFlagLoop (7 / 32 * 4) (2 ^ (7 % 32)) = (0, 128) := by
    norm_num [convertFlagLoop_le]
  have e8 : convertFlagLoop (8 / 32 * 4) (2 ^ (8 % 32)) = (1, 1) := by
    norm_num
    rw [convertFlagLoop_gt _ _ (by norm_num)]
    norm_num [convertFlagLoop_le]
  have e31 : convertFlagLoop (31 / 32 * 4) (2 ^ (31 % 32)) = (3, 128) := by
    norm_num
    rw [convertFlagLoop_gt _ _ (by norm_num), convertFlagLoop_gt _ _ (by norm_num),
      convertFlagLoop_gt _ _ (by norm_num)]
    norm_num [convertFlagLoop_le]
  have e32 : convertFlagLoop (32 / 32 * 4) (2 ^ (32 % 32)) = (4, 1) := by
    norm_num [convertFlagLoop_le]
  refine ⟨?_, ?_, ?_, ?_, ?_⟩ <;> simp only [convert_flag]
  · rw [e0]; norm_num
  · rw [e7]; norm_num
  · rw [e8]; norm_num
  · rw [e31]; norm_num
  · rw [e32]; norm_num

/-- C6: decoding a Do word with action 7 (launch-script) stores the 32-bit
parameter with its 16-bit halves swapped as `scriptID` (the high half of the
parameter is the low half of `scriptID` and vice versa), and encoding swaps
them back, reproducing the original word (hence the original parameter
field). -/
theorem c6_launchScriptSwap (w : Nat) (hw : w < 0x10000000000000000) (h3 : w % 0x100 = 3)
    (h7 : w / 0x100 % 0x100 = 7) :
    ∃ d, DoInstruction.disassemble w = some d ∧ d.variant = DoVariant.doScript ∧
      d.scriptID % 0x10000 = w / 0x100000000 % 0x100000000 / 0x10000 ∧
      d.scriptID / 0x10000 = w / 0x100000000 % 0x100000000 % 0x10000 ∧
      d.assemble = some w := by
  have hd : DoInstruction.disassemble w =
      some (DoInstruction.mk DoVariant.doScript 7
        (toSigned16 (w / 0x10000 % 0x10000))
        (swapHalves (w / 0x100000000 % 0x100000000))) := by
    simp [DoInstruction.disassemble, h3, h7, doSubclassFor, DoInstruction.setParameter,
      DoVariant.swapsParameter]
  refine ⟨_, hd, rfl, ?_, ?_, ?_⟩
  · unfold DoInstruction.scriptID swapHalves
    dsimp only
    omega
  · unfold DoInstruction.scriptID swapHalves
    dsimp only
    omega
  · unfold DoInstruction.assemble DoInstruction.parameter
    simp only [DoVariant.swapsParameter, reduceIte]
    rw [if_pos]
    · rw [Option.some_inj, toSigned16_toNat _ (Nat.mod_lt _ (by norm_num)),
        swapHalves_swapHalves _ (Nat.mod_lt _ (by norm_num))]
      omega
    · obtain ⟨a1, a2⟩ := toSigned16_bounds (w / 0x10000 % 0x10000) (Nat.mod_lt _ (by norm_num))
      refine ⟨by norm_num, a1, a2, ?_⟩
      rw [swapHalves_swapHalves _ (Nat.mod_lt _ (by norm_num))]
      exact Nat.mod_lt _ (by norm_num)

/-- C6 witness: the Do word with action 7 and parameter `0x00020001` decodes
with `scriptID = 0x00010002` and re-encodes to the original word. -/
theorem c6_witness :
    ∃ d, DoInstruction.disassemble 0x0002000100000703 = some d ∧
      d.variant = DoVariant.doScript ∧
      d.scriptID % 0x10000 = (0x00020001 : Nat) / 0x10000 ∧
      d.scriptID / 0x10000 = (0x00020001 : Nat) % 0x10000 ∧
      d.assemble = some 0x0002000100000703 :=
  c6_launchScriptSwap 0x0002000100000703 (by decide) (by decide) (by decide)

theorem toSigned8_eq_neg_one_iff (v : Nat) (h : v < 256) : toSigned8 v = -1 ↔ v = 255 := by
  unfold toSigned8; split <;> omega

theorem toSigned16_eq_neg_one_iff (v : Nat) (h : v < 65536) : toSigned16 v = -1 ↔ v = 65535 := by
  unfold toSigned16; split <;> omega

theorem toSigned8_of_nonneg (v : Nat) (hv : v < 256) (h : 0 ≤ toSigned8 v) :
    toSigned8 v = (v : Int) := by
  unfold toSigned8 at h ⊢
  split at h <;> split <;> omega

theorem toSigned16_of_nonneg (v : Nat) (hv : v < 65536) (h : 0 ≤ toSigned16 v) :
    toSigned16 v = (v : Int) := by
  unfold toSigned16 at h ⊢
  split at h <;> split <;> omega

theorem append_B_ne_END (s : String) : ("B" ++ s) ≠ "END" := by
  obtain ⟨data⟩ := s
  intro h
  have h2 : ('B' :: data) = ['E', 'N', 'D'] := congrArg String.data h
  simp at h2

theorem Label.isNull_iff (l : Label) : l.isNull = true ↔ (l.bmg = -1 ∧ l.index = -1) := by
  unfold Label.isNull
  rw [Bool.and_eq_true, beq_iff_eq, beq_iff_eq]
  tauto

/-- C7 (amended): for every Say word, the rendered goto operand is the
literal `END` exactly when AT LEAST ONE of the decoded goto label components
equals -1 (the unamended claim - `END` exactly when the label equals the
terminal sentinel (-1,-1) - is refuted by `c7_counterexample`); for label
pairs with both components non-negative it renders as
`B{container}_L{index}`; and a Label `isNull` if and only if both
of its components equal -1. -/
theorem c7_amended (w : Nat) (hw : w < 0x10000000000000000) (h1 : w % 0x100 = 1)
    (s : SayInstruction) (hs : SayInstruction.disassemble w = some s) :
    (disassembleInstructionType1_gotoName w = "END" ↔
      (s.nextLabel.bmg = -1 ∨ s.nextLabel.index = -1)) ∧
    (0 ≤ s.nextLabel.bmg → 0 ≤ s.nextLabel.index →
      disassembleInstructionType1_gotoName w =
        "B" ++ toString s.nextLabel.bmg ++ "_L" ++ toString s.nextLabel.index) ∧
    (s.nextLabel.isNull = true ↔ (s.nextLabel.bmg = -1 ∧ s.nextLabel.index = -1)) := by
  have hd : SayInstruction.disassemble w =
      some { messageBMG := w / 0x100 % 0x100
             messageID := w / 0x10000 % 0x10000
             nextLabel := { bmg := toSigned8 (w / 0x1000000000000 % 0x100)
                            index := toSigned16 (w / 0x100000000 % 0x10000) }
             extraData := toSigned8 (w / 0x100000000000000 % 0x100) } := by
    simp [SayInstruction.disassemble, h1]
  rw [hd, Option.some_inj] at hs
  subst hs
  refine ⟨?_, ?_, Label.isNull_iff _⟩ <;>
    dsimp only <;>
    simp only [disassembleInstructionType1_gotoName] <;>
    set wI := w / 0x100000000 % 0x10000 with hwI <;>
    set wB := w / 0x1000000000000 % 0x100 with hwB
  all_goals have hIlt : wI < 65536 := Nat.mod_lt _ (by norm_num)
  all_goals have hBlt : wB < 256 := Nat.mod_lt _ (by norm_num)
  · -- the END iff
    by_cases hB : wB = 255 <;> by_cases hI : wI = 65535
    · simp only [hB, hI, reduceIte]
      exact iff_of_true (by rfl) (Or.inl (by decide))
    · simp only [hB, hI, reduceIte]
      rw [if_pos (Or.inl trivial)]
      exact iff_of_true (by rfl) (Or.inl (by decide))
    · simp only [hB, hI, reduceIte]
      rw [if_pos (Or.inr trivial)]
      exact iff_of_true (by rfl) (Or.inr (by decide))
    · simp only [hB, hI, reduceIte]
      rw [if_neg (by push_neg; constructor <;> omega)]
      refine iff_of_false (by apply append_B_ne_END) ?_
      rw [toSigned8_eq_neg_one_iff _ hBlt, toSigned16_eq_neg_one_iff _ hIlt]
      tauto
  · -- non-sentinel rendering
    intro hb hi
    have hB : wB ≠ 255 := by
      intro hc
      rw [hc] at hb
      exact absurd hb (by decide)
    have hI : wI ≠ 65535 := by
      intro hc
      rw [hc] at hi
      exact absurd hi (by decide)
    simp only [hB, hI, reduceIte]
    rw [if_neg (by push_neg; constructor <;> omega)]
    rw [toSigned8_of_nonneg _ hBlt hb, toSigned16_of_nonneg _ hIlt hi]

/-- C7 counterexample: the Say word `01 00 05 00 FF FF 00 00` has goto label
(0, -1) - not the terminal sentinel, `isNull` is false - yet its rendered goto
operand is `END`. -/
theorem c7_counterexample :
    disassembleInstructionType1_gotoName 0x0000FFFF00050001 = "END" ∧
    (SayInstruction.disassemble 0x0000FFFF00050001).map (fun s => s.nextLabel.isNull) =
      some false ∧
    (SayInstruction.disassemble 0x0000FFFF00050001).map (fun s => s.nextLabel) =
      some { bmg := 0, index := -1 } := by
  refine ⟨by decide, by decide, by decide⟩

/-- C7 witness: the Say word `01 00 05 00 02 00 03 00` with goto label
(3, 2). -/
theorem c7_witness :
    (disassembleInstructionType1_gotoName 0x0003000200050001 = "END" ↔
      (({ bmg := 3, index := 2 } : Label).bmg = -1 ∨
       ({ bmg := 3, index := 2 } : Label).index = -1)) ∧
    (0 ≤ ({ bmg := 3, index := 2 } : Label).bmg →
     0 ≤ ({ bmg := 3, index := 2 } : Label).index →
      disassembleInstructionType1_gotoName 0x0003000200050001 =
        "B" ++ toString ({ bmg := 3, index := 2 } : Label).bmg ++ "_L" ++
          toString ({ bmg := 3, index := 2 } : Label).index) ∧
    (({ bmg := 3, index := 2 } : Label).isNull = true ↔
      (({ bmg := 3, index := 2 } : Label).bmg = -1 ∧
       ({ bmg := 3, index := 2 } : Label).index = -1)) :=
  c7_amended 0x0003000200050001 (by decide) (by decide)
    { messageBMG := 0, messageID := 5, nextLabel := { bmg := 3, index := 2 }, extraData := 0 }
    (by decide)

/-- C8: the word `01 00 05 00 FF FF FF FF` decodes to a Say instruction with
messageBMG 0, messageID 5, goto index -1, goto bmg -1 and extra data -1 (the
0xFFFF/0xFF fields read as two-'s-complement -1); its goto label is the
terminal sentinel and its rendered goto operand is `END`. -/
theorem c8_scenarioA :
    SayInstruction.disassemble 0xFFFFFFFF00050001 =
      some { messageBMG := 0, messageID := 5, nextLabel := { bmg := -1, index := -1 },
             extraData := -1 } ∧
    ({ bmg := -1, index := -1 } : Label).isNull = true ∧
    disassembleInstructionType1_gotoName 0xFFFFFFFF00050001 = "END" := by
  refine ⟨by decide, by decide, by decide⟩

/-- C9: the Switch word with numLabels 2, condition 4, parameter 17 and
firstLabel 3 decodes to the progress-flag variant whose `flag` accessor (an
alias of `parameter`) equals 17, and whose branch names for indices 0 and 1
are "true" and "false". -/
theorem c9_scenarioB :
    (SwitchInstruction.disassemble 0x0003001100040202).map
      (fun s => (s.variant, s.flag, s.parameter, s.numLabels, s.condition, s.firstLabel,
        s.nameForBranch 0, s.nameForBranch 1)) =
    some (SwitchVariant.swPFlag, 17, 17, 2, 4, 3, some "true", some "false") := by
  rfl

/-- C10: the Do word with action 0 and parameter 100 decodes to the
set-progress-flag variant whose `flag` accessor equals 100 (`flag` aliases
`parameter` on every Do flag sub-variant), and the flag-address mapper at
(base, 100) returns (base + 12, 0x10), the value of the spec formula. -/
theorem c10_scenarioC :
    ((DoInstruction.disassemble 0x0000006400000003).map
        (fun d => (d.variant, d.flag, d.parameter)) =
      some (DoVariant.doSetPFlag, 100, 100)) ∧
    (∀ d : DoInstruction, d.flag = d.parameter) ∧
    (∀ base : Int, convert_flag base 100 = (base + 12, 0x10)) := by
  refine ⟨by decide, fun d => rfl, ?_⟩
  intro base
  have e : convertFlagLoop (100 / 32 * 4) (2 ^ (100 % 32)) = (12, 16) := by
    norm_num [convertFlagLoop_le]
  simp only [convert_flag]
  rw [e]
  norm_num
